import Mathlib

/-!
Verification of the `csm-offline-computation` repository: a shallow
embedding of `src/csm_offline/io.py` and `src/csm_offline/workbench.py`
into Lean 4, together with theorems settling the claims of the specification.

Modelling conventions:
* Python exceptions are an inductive `PyError`; the built-in class
  hierarchy (`OSError`/`IOError`, `RuntimeError`, `ValueError`, ...) is
  rendered by boolean class predicates.
* `pathlib.PyPath` is a list of path components (`PyPath := List String`).
* The filesystem is the list of paths of the files that exist.
* External process execution (`subprocess.run`) is an environment
  `Exec` mapping a command line to `none` (the executable cannot be
  spawned, raising `FileNotFoundError`) or `some code` (the process ran
  and exited with `code`; `check=True` raises `CalledProcessError` on a
  non-zero code).
* Stateful functions return an `Outcome`: the Python return value or
  raised exception, the resulting filesystem, and the trace of commands
  passed to `subprocess.run`.
* Numeric arrays are lists over `ℝ`; `numpy` operations are embedded as
  real-valued functions.
-/

/-- A Python exception value, restricted to the exception classes the
embedded code can raise. -/
inductive PyError : Type where
  | valueError (msg : String)
  | runtimeError (msg : String)
  | fileNotFoundError (msg : String)
  | fileExistsError (msg : String)
  | keyError (msg : String)
  | attributeError (msg : String)
  | calledProcessError (returncode : Int)
  | zeroDivisionError (msg : String)
  deriving DecidableEq, Repr

/-- Python class test `isinstance(e, OSError)`; `IOError` is an alias of
`OSError` in Python 3, and `FileNotFoundError` and `FileExistsError` are
its subclasses.  `KeyError`, `ValueError`, `RuntimeError`,
`subprocess.CalledProcessError` and `AttributeError` are not. -/
def PyError.isIOError : PyError → Bool
  | .fileNotFoundError _ => true
  | .fileExistsError _ => true
  | _ => false

/-- Python class test `isinstance(e, RuntimeError)`: only `RuntimeError`
itself among the modelled classes. -/
def PyError.isRuntimeError : PyError → Bool
  | .runtimeError _ => true
  | _ => false

/-- Python class test `isinstance(e, ValueError)`: only `ValueError`
itself among the modelled classes. -/
def PyError.isValueError : PyError → Bool
  | .valueError _ => true
  | _ => false

/-- Python class test `isinstance(e, AttributeError)`. -/
def PyError.isAttributeError : PyError → Bool
  | .attributeError _ => true
  | _ => false

/-- A `pathlib.PyPath`, as its list of components. -/
abbrev PyPath : Type := List String

/-- `str(path)`: render a path for a command line. -/
def renderPath (p : PyPath) : String := String.intercalate "/" p

/-- A command line handed to `subprocess.run`. -/
abbrev CmdLine : Type := List String

/-- The process-spawning environment: what `subprocess.run` does for a
given command line.  `none` means the spawn itself fails (missing
executable); `some code` means the process ran and exited with `code`. -/
structure Exec : Type where
  spawn : CmdLine → Option Int

/-- Result of running a stateful piece of the Python code: the returned
value or raised exception, the filesystem afterwards, and the commands
that were passed to `subprocess.run`, in order. -/
structure Outcome (α : Type) : Type where
  result : Except PyError α
  fs : List PyPath
  calls : List CmdLine

/-- `workbench._logged_subprocess_run(command)`: logs, then calls
`subprocess.run(command, check=True)`.  A failed spawn raises
`FileNotFoundError`; a non-zero exit raises `CalledProcessError`. -/
def loggedSubprocessRun (env : Exec) (command : CmdLine) :
    Except PyError Unit × List CmdLine :=
  match env.spawn command with
  | none =>
      (.error (.fileNotFoundError
        ("No such file or directory: " ++ String.intercalate " " command)),
       [command])
  | some code =>
      if code = 0 then (.ok (), [command])
      else (.error (.calledProcessError code), [command])

/-- `workbench.Workbench`: holds the executable path. -/
structure Workbench : Type where
  executable : String

/-- `Workbench._is_workbench_available`: runs `<executable> -version`
and catches only `subprocess.CalledProcessError`; any other exception
(such as the `FileNotFoundError` of a missing executable) propagates. -/
def isWorkbenchAvailable (env : Exec) (executable : String) :
    Except PyError Bool × List CmdLine :=
  match loggedSubprocessRun env [executable, "-version"] with
  | (.ok _, t) => (.ok true, t)
  | (.error (.calledProcessError _), t) => (.ok false, t)
  | (.error e, t) => (.error e, t)

/-- `Workbench.__init__`: stores the executable and raises
`RuntimeError("Workbench not available.")` when
`_is_workbench_available` returns `False`. -/
def workbenchInit (env : Exec) (executable : String) :
    Except PyError Workbench × List CmdLine :=
  match isWorkbenchAvailable env executable with
  | (.ok true, t) => (.ok ⟨executable⟩, t)
  | (.ok false, t) => (.error (.runtimeError "Workbench not available."), t)
  | (.error e, t) => (.error e, t)

/-- `workbench._raise_error_if_file_exists`, fused with the state it
reads: `True` iff the file exists, in which case the caller raises
`FileExistsError`. -/
def fileExists (fs : List PyPath) (file : PyPath) : Bool := fs.contains file

/-- `Workbench.surface_to_volume`: validates that `metric`, `surface`
and `volume_space` exist and that `volume_out` does not, then invokes
`<executable> -metric-to-volume-mapping ...`.  A successful invocation
creates `volume_out`. -/
def surfaceToVolume (env : Exec) (executable : String) (fs : List PyPath)
    (metric surface volumeSpace volumeOut : PyPath) (distance : String) :
    Outcome Unit :=
  if fileExists fs metric = false then
    ⟨.error (.fileNotFoundError ("File " ++ renderPath metric ++ " does not exist.")),
     fs, []⟩
  else if fileExists fs surface = false then
    ⟨.error (.fileNotFoundError ("File " ++ renderPath surface ++ " does not exist.")),
     fs, []⟩
  else if fileExists fs volumeSpace = false then
    ⟨.error (.fileNotFoundError ("File " ++ renderPath volumeSpace ++ " does not exist.")),
     fs, []⟩
  else if fileExists fs volumeOut = true then
    ⟨.error (.fileExistsError ("File " ++ renderPath volumeOut ++ " already exists.")),
     fs, []⟩
  else
    let command : CmdLine :=
      [executable, "-metric-to-volume-mapping", renderPath metric, renderPath surface,
       renderPath volumeSpace, renderPath volumeOut, "-nearest-vertex", distance]
    match loggedSubprocessRun env command with
    | (.ok _, t) => ⟨.ok (), volumeOut :: fs, t⟩
    | (.error e, t) => ⟨.error e, fs, t⟩

/-- `Workbench.volume_math`: validates that `volume_out` does not exist,
then invokes `<executable> -volume-math <expression> <volume_out>
-var x0 <vol0> ...`.  A successful invocation creates `volume_out`. -/
def volumeMath (env : Exec) (executable : String) (fs : List PyPath)
    (expression : String) (volumeOut : PyPath) (volumeFiles : List PyPath) :
    Outcome Unit :=
  if fileExists fs volumeOut = true then
    ⟨.error (.fileExistsError ("File " ++ renderPath volumeOut ++ " already exists.")),
     fs, []⟩
  else
    let varArgs : List String :=
      (volumeFiles.enum.map
        (fun iv => ["-var", "x" ++ toString iv.1, renderPath iv.2])).flatten
    let command : CmdLine :=
      [executable, "-volume-math", expression, renderPath volumeOut] ++ varArgs
    match loggedSubprocessRun env command with
    | (.ok _, t) => ⟨.ok (), volumeOut :: fs, t⟩
    | (.error e, t) => ⟨.error e, fs, t⟩

/-- The path `pathlib.PyPath(temp_dir) / f"volume_{index}.nii.gz"` of the
transient per-hemisphere volume for loop index `index`. -/
def tempVolPath (tempDir : PyPath) (index : Nat) : PyPath :=
  tempDir ++ [("volume_" ++ toString index ++ ".nii.gz")]

/-- Exit of the `with tempfile.TemporaryDirectory()` block: the
directory and everything inside it are removed, on both the normal and
the exceptional exit path. -/
def cleanupTempDir (tempDir : PyPath) (fs : List PyPath) : List PyPath :=
  fs.filter (fun p => !(List.isPrefixOf tempDir p))

/-- The `for index in range(len(metrics))` loop body of
`multi_surface_to_volume`: map each metric/surface pair into a transient
volume in the temporary directory, collecting the volume paths; a raised
exception aborts the loop. -/
def stvLoop (env : Exec) (executable : String) (tempDir : PyPath)
    (volumeSpace : PyPath) (distance : String) :
    List (PyPath × PyPath) → Nat → List PyPath → Outcome (List PyPath)
  | [], _, fs => ⟨.ok [], fs, []⟩
  | (metric, surface) :: rest, index, fs =>
    let volumeFile := tempVolPath tempDir index
    match surfaceToVolume env executable fs metric surface volumeSpace
        volumeFile distance with
    | ⟨.error e, fs1, t1⟩ => ⟨.error e, fs1, t1⟩
    | ⟨.ok _, fs1, t1⟩ =>
      match stvLoop env executable tempDir volumeSpace distance rest
          (index + 1) fs1 with
      | ⟨.error e, fs2, t2⟩ => ⟨.error e, fs2, t1 ++ t2⟩
      | ⟨.ok vfs, fs2, t2⟩ => ⟨.ok (volumeFile :: vfs), fs2, t1 ++ t2⟩

/-- The averaging expression `({x0 + ... + x(n-1)}) / n` built by
`multi_surface_to_volume` (braces shown here only as grouping). -/
def averageExpression (n : Nat) : String :=
  "(" ++ String.intercalate " + "
    ((List.range n).map (fun i => "x" ++ toString i)) ++ ") / " ++ toString n

/-- `workbench.multi_surface_to_volume`: validates the lengths, builds a
`Workbench` (issuing the version probe), then inside a scoped temporary
directory maps every pair to a transient volume and averages them into
`volume_out`.  The temporary directory is removed on every exit path of
the `with` block; if construction of the `Workbench` fails, the `with`
block was never entered. -/
def multiSurfaceToVolume (env : Exec) (executable : String) (tempDir : PyPath)
    (metrics surfaces : List PyPath) (volumeSpace volumeOut : PyPath)
    (distance : String) (fs : List PyPath) : Outcome Unit :=
  if metrics.length ≠ surfaces.length then
    ⟨.error (.valueError "The number of metrics and surfaces must be equal."),
     fs, []⟩
  else
    match workbenchInit env executable with
    | (.error e, t0) => ⟨.error e, fs, t0⟩
    | (.ok wb, t0) =>
      match stvLoop env wb.executable tempDir volumeSpace distance
          (metrics.zip surfaces) 0 fs with
      | ⟨.error e, fs1, t1⟩ => ⟨.error e, cleanupTempDir tempDir fs1, t0 ++ t1⟩
      | ⟨.ok volumeFiles, fs1, t1⟩ =>
        let out := volumeMath env wb.executable fs1
          (averageExpression volumeFiles.length) volumeOut volumeFiles
        ⟨out.result, cleanupTempDir tempDir out.fs, t0 ++ t1 ++ out.calls⟩

/-- `io.FeatureData`: four per-surface arrays.  The Python class is
untyped and is reused both for the feature matrices (2-D arrays) and for
the similarity result (1-D arrays), so the field type is a parameter. -/
structure FeatureData (α : Type) : Type where
  human_left : α
  human_right : α
  macaque_left : α
  macaque_right : α

/-- The `FeatureData.human` property: `np.concatenate((human_left,
human_right))` along the vertex axis. -/
def FeatureData.human {β : Type} (fd : FeatureData (List β)) : List β :=
  fd.human_left ++ fd.human_right

/-- The `FeatureData.macaque` property: `np.concatenate((macaque_left,
macaque_right))` along the vertex axis. -/
def FeatureData.macaque {β : Type} (fd : FeatureData (List β)) : List β :=
  fd.macaque_left ++ fd.macaque_right

/-- The `FeatureData.all_data` property: `np.concatenate((human,
macaque))` along the vertex axis. -/
def FeatureData.all_data {β : Type} (fd : FeatureData (List β)) : List β :=
  fd.human ++ fd.macaque

/-- A feature matrix: a list of per-vertex rows of real features. -/
abbrev FeatureMatrix : Type := List (List ℝ)

/-- Python `getattr(self, species)` on a `FeatureData` instance holding
feature matrices: the four instance attributes and the three
array-valued properties resolve to their arrays; any other string raises
`AttributeError`.  (The methods of the class are outside the model: no claim
feeds a method name to the weighted average.) -/
def featureDataGetAttr (fd : FeatureData FeatureMatrix) (name : String) :
    Except PyError FeatureMatrix :=
  if name = "human_left" then .ok fd.human_left
  else if name = "human_right" then .ok fd.human_right
  else if name = "macaque_left" then .ok fd.macaque_left
  else if name = "macaque_right" then .ok fd.macaque_right
  else if name = "human" then .ok fd.human
  else if name = "macaque" then .ok fd.macaque
  else if name = "all_data" then .ok fd.all_data
  else .error (.attributeError
    ("FeatureData object has no attribute " ++ name))

/-- Dot product of two vectors, `np.dot` on 1-D arrays. -/
noncomputable def dotProduct (u v : List ℝ) : ℝ :=
  (List.zipWith (fun a b => a * b) u v).sum

/-- `np.linalg.norm(v)`: the Euclidean norm. -/
noncomputable def npNorm (v : List ℝ) : ℝ :=
  Real.sqrt (dotProduct v v)

/-- Column `j` of a row-major matrix, to take per-column aggregates. -/
def matColumn {β : Type} (a : List (List β)) (j : Nat) : List β :=
  a.filterMap (fun row => row.get? j)

/-- `np.average(a, weights=w, axis=0)` on a 2-D array `a`: validates
that the 1-D weight vector matches the length of axis 0 (raising
`ValueError` otherwise), then that the weights do not sum to zero
(raising `ZeroDivisionError` otherwise), and finally takes the weighted
mean of the rows, per column. -/
noncomputable def npAverage (a : FeatureMatrix) (w : List ℝ) :
    Except PyError (List ℝ) :=
  if w.length ≠ a.length then
    .error (.valueError "Length of weights not compatible with specified axis.")
  else if (w.sum = 0) then
    .error (.zeroDivisionError "Weights sum to zero, cannot be normalized")
  else
    .ok ((List.range (a.headD []).length).map
      (fun j => dotProduct w (matColumn a j) / w.sum))

/-- The clipping threshold `0.9999` of `io._cosine_similarity`. -/
noncomputable def simThreshold : ℝ := 0.9999

/-- One entry of the raw quotient `np.dot(seed, target) /
(norm(seed) * norm(target))`: `none` models the IEEE `NaN` produced when
the denominator is zero (the numerator is then zero as well, since a
zero-norm real vector has zero dot products). -/
noncomputable def rawCosine (u v : List ℝ) : Option ℝ :=
  if npNorm u * npNorm v = 0 then none
  else some (dotProduct u v / (npNorm u * npNorm v))

/-- The post-processing of `io._cosine_similarity` on one entry: values
above `0.9999` are set to `0.9999`, values below `-0.9999` to `-0.9999`
(a `NaN` compares false in both tests and passes through), and a
remaining `NaN` is replaced by `0`. -/
noncomputable def clipAndNanGuard (x : Option ℝ) : ℝ :=
  match x with
  | none => 0
  | some y =>
      if y > simThreshold then simThreshold
      else if y < -simThreshold then -simThreshold
      else y

/-- One entry of `io._cosine_similarity`. -/
noncomputable def cosineEntry (u v : List ℝ) : ℝ :=
  clipAndNanGuard (rawCosine u v)

/-- `io._cosine_similarity(np.atleast_2d(seed), targets).squeeze()`: the
similarity of the single seed row against every row of `targets`. -/
noncomputable def cosineSimilarityRow (seed : List ℝ)
    (targets : FeatureMatrix) : List ℝ :=
  targets.map (fun t => cosineEntry seed t)

/-- Python slice `xs[i:j]` for `i ≤ j` (the only form the code uses). -/
def pySlice {β : Type} (xs : List β) (i j : Nat) : List β :=
  (xs.drop i).take (j - i)

/-- The body of `io.FeatureData.feature_similarity` after the `getattr`
line, on an explicit source array `speciesData`: take the weighted
average of the rows of the source, compute the cosine similarity of the
averaged vector against `all_data`, and split the flat similarity
vector at the row counts of `human_left`, `human`, and `human` +
`macaque_left` (Python slices `[:hl]`, `[hl:h]`, `[h:h+ml]`,
`[h+ml:]`). -/
noncomputable def similarityFromSource (fd : FeatureData FeatureMatrix)
    (speciesData : FeatureMatrix) (weights : List ℝ) :
    Except PyError (FeatureData (List ℝ)) :=
  match npAverage speciesData weights with
  | .error e => .error e
  | .ok userFeature =>
    let similarity := cosineSimilarityRow userFeature fd.all_data
    .ok ⟨pySlice similarity 0 fd.human_left.length,
         pySlice similarity fd.human_left.length fd.human.length,
         pySlice similarity fd.human.length
           (fd.human.length + fd.macaque_left.length),
         similarity.drop (fd.human.length + fd.macaque_left.length)⟩

/-- `io.FeatureData.feature_similarity(weights, species)`: resolves
`species` by `getattr(self, species)`, then runs the similarity
pipeline on the resolved array. -/
noncomputable def feature_similarity (fd : FeatureData FeatureMatrix)
    (weights : List ℝ) (species : String) :
    Except PyError (FeatureData (List ℝ)) :=
  match featureDataGetAttr fd species with
  | .error e => .error e
  | .ok speciesData => similarityFromSource fd speciesData weights

/-- The flat similarity vector of `feature_similarity` before the
four-way split, for stating the round-trip property. -/
noncomputable def flatSimilarity (fd : FeatureData FeatureMatrix)
    (weights : List ℝ) (species : String) : Except PyError (List ℝ) :=
  match featureDataGetAttr fd species with
  | .error e => .error e
  | .ok speciesData =>
    match npAverage speciesData weights with
    | .error e => .error e
    | .ok userFeature => .ok (cosineSimilarityRow userFeature fd.all_data)

/-- An HDF5 file, as the association list from dataset names to their
(squeezed) arrays; the array payload is abstract. -/
abbrev H5File (α : Type) : Type := List (String × α)

/-- An on-disk collection of HDF5 files keyed by path. -/
abbrev H5Fs (α : Type) : Type := List (PyPath × H5File α)

/-- `h5py.File(filepath, "r")`: opening a missing file raises
`FileNotFoundError` (an `OSError`, per the h5py file-open contract). -/
def h5pyOpen {α : Type} (fs : H5Fs α) (filepath : PyPath) :
    Except PyError (H5File α) :=
  match fs.lookup filepath with
  | none => .error (.fileNotFoundError
      ("Unable to open file (file " ++ renderPath filepath ++ " not found)"))
  | some h5 => .ok h5

/-- `h5[name]` on an h5py file object: a missing dataset raises
`KeyError` (per the h5py group-indexing contract). -/
def h5GetItem {α : Type} (h5 : H5File α) (name : String) :
    Except PyError α :=
  match h5.lookup name with
  | none => .error (.keyError
      ("Unable to open object (object " ++ name ++ " does not exist)"))
  | some v => .ok v

/-- `io.FeatureData.load_from_h5(filepath)`: opens the file and reads
the dataset named `data`. -/
def load_from_h5 {α : Type} (fs : H5Fs α) (filepath : PyPath) :
    Except PyError α :=
  match h5pyOpen fs filepath with
  | .error e => .error e
  | .ok h5 => h5GetItem h5 "data"

/-- The four fixed feature-file paths of `io.FeatureFiles`, relative to
the configured data directory. -/
def featureFilePaths (dataDir : PyPath) : List PyPath :=
  [dataDir ++ ["human_left_gradient_10k_fs_lr.h5"],
   dataDir ++ ["human_right_gradient_10k_fs_lr.h5"],
   dataDir ++ ["macaque_left_gradient_10k_fs_lr.h5"],
   dataDir ++ ["macaque_right_gradient_10k_fs_lr.h5"]]

/-- `io.FeatureData.from_data_dir()`: loads the four feature files in
the fixed order human-left, human-right, macaque-left, macaque-right. -/
def from_data_dir {α : Type} (fs : H5Fs α) (dataDir : PyPath) :
    Except PyError (FeatureData α) :=
  match load_from_h5 fs (dataDir ++ ["human_left_gradient_10k_fs_lr.h5"]) with
  | .error e => .error e
  | .ok hl =>
    match load_from_h5 fs (dataDir ++ ["human_right_gradient_10k_fs_lr.h5"]) with
    | .error e => .error e
    | .ok hr =>
      match load_from_h5 fs (dataDir ++ ["macaque_left_gradient_10k_fs_lr.h5"]) with
      | .error e => .error e
      | .ok ml =>
        match load_from_h5 fs
            (dataDir ++ ["macaque_right_gradient_10k_fs_lr.h5"]) with
        | .error e => .error e
        | .ok mr => .ok ⟨hl, hr, ml, mr⟩

/-- The raised exception of a Python computation, if it raised. -/
def raisedError {α : Type} : Except PyError α → Option PyError
  | .error e => some e
  | .ok _ => none

/-- Everything surviving the removal of the temporary directory lies
outside the temporary directory. -/
theorem cleanupTempDir_no_temp (tempDir : PyPath) (fs : List PyPath) :
    ∀ p ∈ cleanupTempDir tempDir fs, List.isPrefixOf tempDir p = false := by
  intro p hp
  have h := List.of_mem_filter hp
  simpa using h

/-- C1 (amended): if the version probe runs and exits non-zero,
constructing the Workbench adapter raises
`RuntimeError("Workbench not available.")`; if the executable is missing
so the probe cannot be spawned, the spawn-level `FileNotFoundError` (an
`OSError`/`IOError`, not a `RuntimeError`) propagates out of the
constructor instead. -/
theorem workbench_init_probe_failure (env : Exec) (exe : String) :
    (∀ code : Int, env.spawn [exe, "-version"] = some code → code ≠ 0 →
      (workbenchInit env exe).1 =
        .error (.runtimeError "Workbench not available.")) ∧
    (env.spawn [exe, "-version"] = none →
      ∃ m, (workbenchInit env exe).1 = .error (.fileNotFoundError m) ∧
        PyError.isRuntimeError (.fileNotFoundError m) = false ∧
        PyError.isIOError (.fileNotFoundError m) = true) := by
  constructor
  · intro code h hne
    simp [workbenchInit, isWorkbenchAvailable, loggedSubprocessRun, h, hne]
  · intro h
    refine ⟨"No such file or directory: " ++ String.intercalate " "
      [exe, "-version"], ?_, rfl, rfl⟩
    simp [workbenchInit, isWorkbenchAvailable, loggedSubprocessRun, h]

/-- Witness for C1 (amended) at a probe that exits with code 1. -/
theorem workbench_init_probe_failure_witness :
    (Exec.mk (fun _ => some 1)).spawn ["wb_command", "-version"] = some 1 ∧
    (workbenchInit ⟨fun _ => some 1⟩ "wb_command").1 =
      .error (.runtimeError "Workbench not available.") :=
  ⟨rfl,
   (workbench_init_probe_failure ⟨fun _ => some 1⟩ "wb_command").1 1 rfl
     (by decide)⟩

/-- An execution environment in which no executable can be spawned:
every `subprocess.run` fails at spawn time, as it does when the
configured Workbench executable path does not exist. -/
def envMissing : Exec := ⟨fun _ => none⟩

/-- C1 (counterexample): with a missing executable the constructor does
raise, but the raised error is a `FileNotFoundError` — an
`IOError`-class error, not a `RuntimeError`-class one, contradicting the
claim for the executable-missing probe failure. -/
theorem workbench_init_missing_executable_counterexample :
    (raisedError (workbenchInit envMissing "wb_command").1).map
        PyError.isRuntimeError = some false ∧
    (raisedError (workbenchInit envMissing "wb_command").1).map
        PyError.isIOError = some true :=
  ⟨rfl, rfl⟩

/-- C7: `multi_surface_to_volume` with differing metric and surface
counts raises `ValueError` at once: the filesystem is untouched and no
process at all is invoked — not even the version probe of the adapter,
because the length check precedes construction of the `Workbench`. -/
theorem multi_surface_to_volume_length_mismatch (env : Exec) (exe : String)
    (tempDir : PyPath) (metrics surfaces : List PyPath)
    (volumeSpace volumeOut : PyPath) (distance : String) (fs : List PyPath)
    (h : metrics.length ≠ surfaces.length) :
    multiSurfaceToVolume env exe tempDir metrics surfaces volumeSpace
        volumeOut distance fs =
      ⟨.error (.valueError "The number of metrics and surfaces must be equal."),
       fs, []⟩ := by
  unfold multiSurfaceToVolume
  rw [if_pos h]

/-- Witness for C7: one metric and two surfaces. -/
theorem multi_surface_to_volume_length_mismatch_witness :
    ([(["m"] : PyPath)].length ≠ [(["s1"] : PyPath), ["s2"]].length) ∧
    multiSurfaceToVolume ⟨fun _ => some 0⟩ "wb" ["tmp"] [["m"]]
        [["s1"], ["s2"]] ["vs"] ["out"] "3.0" [] =
      ⟨.error (.valueError "The number of metrics and surfaces must be equal."),
       [], []⟩ :=
  ⟨by decide,
   multi_surface_to_volume_length_mismatch _ _ _ _ _ _ _ _ _ (by decide)⟩

/-- C8: `surface_to_volume` with a missing metric, surface or
volume-space file, or with an already-existing output file, raises
before any external process is spawned (no command reaches
`subprocess.run`) and leaves the filesystem unchanged — in particular an
existing output is never overwritten. -/
theorem surface_to_volume_precondition_failure (env : Exec) (exe : String)
    (fs : List PyPath) (metric surface volumeSpace volumeOut : PyPath)
    (distance : String)
    (h : fileExists fs metric = false ∨ fileExists fs surface = false ∨
      fileExists fs volumeSpace = false ∨ fileExists fs volumeOut = true) :
    (raisedError (surfaceToVolume env exe fs metric surface volumeSpace
        volumeOut distance).result).isSome = true ∧
    (surfaceToVolume env exe fs metric surface volumeSpace volumeOut
        distance).fs = fs ∧
    (surfaceToVolume env exe fs metric surface volumeSpace volumeOut
        distance).calls = [] := by
  unfold surfaceToVolume
  by_cases h1 : fileExists fs metric = false
  · simp [h1, raisedError]
  · rw [if_neg h1]
    by_cases h2 : fileExists fs surface = false
    · simp [h2, raisedError]
    · rw [if_neg h2]
      by_cases h3 : fileExists fs volumeSpace = false
      · simp [h3, raisedError]
      · rw [if_neg h3]
        by_cases h4 : fileExists fs volumeOut = true
        · simp [h4, raisedError]
        · rcases h with h | h | h | h <;> simp_all

/-- Witness for C8 at an existing output file and present inputs. -/
theorem surface_to_volume_precondition_failure_witness :
    (fileExists [["m"], ["s"], ["vs"], ["out"]] (["out"] : PyPath) = true) ∧
    ((raisedError (surfaceToVolume ⟨fun _ => some 0⟩ "wb"
        [["m"], ["s"], ["vs"], ["out"]] ["m"] ["s"] ["vs"] ["out"]
        "3.0").result).isSome = true ∧
     (surfaceToVolume ⟨fun _ => some 0⟩ "wb" [["m"], ["s"], ["vs"], ["out"]]
        ["m"] ["s"] ["vs"] ["out"] "3.0").fs = [["m"], ["s"], ["vs"], ["out"]] ∧
     (surfaceToVolume ⟨fun _ => some 0⟩ "wb" [["m"], ["s"], ["vs"], ["out"]]
        ["m"] ["s"] ["vs"] ["out"] "3.0").calls = []) :=
  ⟨by decide,
   surface_to_volume_precondition_failure _ _ _ _ _ _ _ _
     (Or.inr (Or.inr (Or.inr (by decide))))⟩

/-- C9: on every exit path of `multi_surface_to_volume` — success or
raised error — the resulting filesystem holds no file inside the scoped
temporary directory (it and all intermediate volumes are removed), and
every intermediate per-hemisphere volume path lies inside that
directory.  The freshness hypothesis says the temporary directory was
empty to begin with, which is what `tempfile.TemporaryDirectory`
guarantees of the directory it creates. -/
theorem multi_surface_to_volume_temp_cleanup (env : Exec) (exe : String)
    (tempDir : PyPath) (metrics surfaces : List PyPath)
    (volumeSpace volumeOut : PyPath) (distance : String) (fs : List PyPath)
    (hfresh : ∀ p ∈ fs, List.isPrefixOf tempDir p = false) :
    (∀ p ∈ (multiSurfaceToVolume env exe tempDir metrics surfaces
        volumeSpace volumeOut distance fs).fs,
      List.isPrefixOf tempDir p = false) ∧
    (∀ index : Nat,
      List.isPrefixOf tempDir (tempVolPath tempDir index) = true) := by
  constructor
  · unfold multiSurfaceToVolume
    split
    · exact hfresh
    · split
      · exact hfresh
      · split
        · exact cleanupTempDir_no_temp _ _
        · exact cleanupTempDir_no_temp _ _
  · intro index
    have hpre : tempDir <+: tempVolPath tempDir index :=
      List.prefix_append tempDir _
    simpa [List.isPrefixOf_iff_prefix] using hpre

/-- Witness for C9: a one-pair projection over a concrete filesystem
with a fresh temporary directory. -/
theorem multi_surface_to_volume_temp_cleanup_witness :
    (∀ p ∈ ([["m"], ["s"], ["vs"]] : List PyPath),
      List.isPrefixOf ["tmp"] p = false) ∧
    ((∀ p ∈ (multiSurfaceToVolume ⟨fun _ => some 0⟩ "wb" ["tmp"] [["m"]]
        [["s"]] ["vs"] ["out"] "3.0" [["m"], ["s"], ["vs"]]).fs,
      List.isPrefixOf ["tmp"] p = false) ∧
     (∀ index : Nat,
      List.isPrefixOf ["tmp"] (tempVolPath ["tmp"] index) = true)) :=
  ⟨by decide,
   multi_surface_to_volume_temp_cleanup _ _ _ _ _ _ _ _ _ (by decide)⟩

/-- Consecutive Python slices at ascending boundaries concatenate back
to the whole list. -/
theorem pySlice_concat {β : Type} (s : List β) (i j k : Nat)
    (hij : i ≤ j) (hjk : j ≤ k) :
    pySlice s 0 i ++ pySlice s i j ++ pySlice s j k ++ s.drop k = s := by
  have h1 : pySlice s j k ++ s.drop k = s.drop j := by
    have hk : s.drop k = (s.drop j).drop (k - j) := by
      rw [List.drop_drop]
      congr 1
      omega
    rw [pySlice, hk, List.take_append_drop]
  have h2 : pySlice s i j ++ s.drop j = s.drop i := by
    have hj : s.drop j = (s.drop i).drop (j - i) := by
      rw [List.drop_drop]
      congr 1
      omega
    rw [pySlice, hj, List.take_append_drop]
  have h3 : pySlice s 0 i = s.take i := by
    simp [pySlice]
  calc pySlice s 0 i ++ pySlice s i j ++ pySlice s j k ++ s.drop k
      = pySlice s 0 i ++ (pySlice s i j ++ (pySlice s j k ++ s.drop k)) := by
        simp [List.append_assoc]
    _ = s.take i ++ s.drop i := by rw [h1, h2, h3]
    _ = s := List.take_append_drop i s

/-- C5: the four per-surface segments returned by `feature_similarity`,
concatenated in the fixed order human-left, human-right, macaque-left,
macaque-right, reproduce the flat similarity vector exactly, and the
segment lengths equal the row counts of the four feature matrices. -/
theorem feature_similarity_split_roundtrip (fd : FeatureData FeatureMatrix)
    (weights : List ℝ) (species : String) :
    (feature_similarity fd weights species).map
        (fun r => r.human_left ++ r.human_right ++ r.macaque_left ++
          r.macaque_right) =
      flatSimilarity fd weights species ∧
    (feature_similarity fd weights species).map
        (fun r => [r.human_left.length, r.human_right.length,
          r.macaque_left.length, r.macaque_right.length]) =
      (flatSimilarity fd weights species).map
        (fun _ => [fd.human_left.length, fd.human_right.length,
          fd.macaque_left.length, fd.macaque_right.length]) := by
  rcases hga : featureDataGetAttr fd species with e | sd
  · constructor <;>
      simp [feature_similarity, flatSimilarity, hga, Except.map]
  · rcases hav : npAverage sd weights with e | uf
    · constructor <;>
        simp [feature_similarity, flatSimilarity, similarityFromSource, hga,
          hav, Except.map]
    · have hhuman : fd.human.length =
          fd.human_left.length + fd.human_right.length := by
        simp [FeatureData.human]
      have hsim : (cosineSimilarityRow uf fd.all_data).length =
          fd.human_left.length + fd.human_right.length +
          fd.macaque_left.length + fd.macaque_right.length := by
        simp [cosineSimilarityRow, FeatureData.all_data, FeatureData.human,
          FeatureData.macaque]
        omega
      constructor
      · simp only [feature_similarity, flatSimilarity, similarityFromSource,
          hga, hav, Except.map]
        refine congrArg Except.ok ?_
        exact pySlice_concat _ _ _ _ (by omega) (by omega)
      · simp only [feature_similarity, flatSimilarity, similarityFromSource,
          hga, hav, Except.map]
        refine congrArg Except.ok ?_
        simp only [pySlice, List.length_take, List.length_drop,
          List.drop_zero, Nat.sub_zero]
        rw [hhuman]
        simp only [List.cons.injEq, and_true]
        omega

/-- C3: a weight vector whose length differs from the total
vertex count of the selected species (left row count + right row count) makes
`feature_similarity` raise the numpy length `ValueError` — a validation
error — before any similarity value is produced (the error is raised by
the weighted average, ahead of the cosine-similarity step). -/
theorem feature_similarity_wrong_weight_length
    (fd : FeatureData FeatureMatrix) (weights : List ℝ) :
    (weights.length ≠ fd.human_left.length + fd.human_right.length →
      feature_similarity fd weights "human" =
        .error (.valueError
          "Length of weights not compatible with specified axis.") ∧
      PyError.isValueError (.valueError
        "Length of weights not compatible with specified axis.") = true) ∧
    (weights.length ≠ fd.macaque_left.length + fd.macaque_right.length →
      feature_similarity fd weights "macaque" =
        .error (.valueError
          "Length of weights not compatible with specified axis.")) := by
  constructor
  · intro h
    have hlen : weights.length ≠ fd.human.length := by
      simpa [FeatureData.human] using h
    refine ⟨?_, rfl⟩
    simp [feature_similarity, featureDataGetAttr, similarityFromSource,
      npAverage, hlen]
  · intro h
    have hlen : weights.length ≠ fd.macaque.length := by
      simpa [FeatureData.macaque] using h
    simp [feature_similarity, featureDataGetAttr, similarityFromSource,
      npAverage, hlen]

/-- Witness for C3: an empty weight vector against one-row-per-surface
feature matrices. -/
theorem feature_similarity_wrong_weight_length_witness :
    (([] : List ℝ).length ≠
      ([[(1 : ℝ), 0]] : FeatureMatrix).length +
      ([[(1 : ℝ), 0]] : FeatureMatrix).length) ∧
    feature_similarity
        ⟨[[(1 : ℝ), 0]], [[(1 : ℝ), 0]], [[(1 : ℝ), 0]], [[(1 : ℝ), 0]]⟩
        [] "human" =
      .error (.valueError
        "Length of weights not compatible with specified axis.") :=
  ⟨by decide,
   ((feature_similarity_wrong_weight_length
     ⟨[[(1 : ℝ), 0]], [[(1 : ℝ), 0]], [[(1 : ℝ), 0]], [[(1 : ℝ), 0]]⟩
     []).1 (by decide)).1⟩

/-- C4: every entry of the cosine-similarity output lies in the closed
interval `[-0.9999, 0.9999]`, and for a vector of unit norm paired with
itself the raw cosine similarity is exactly `1` while the returned,
clipped value is exactly `0.9999` — never `±1`. -/
theorem cosine_similarity_clipped (seed : List ℝ) (targets : FeatureMatrix)
    (w : List ℝ) (hw : dotProduct w w = 1) :
    (∀ x ∈ cosineSimilarityRow seed targets,
      -(0.9999 : ℝ) ≤ x ∧ x ≤ (0.9999 : ℝ)) ∧
    rawCosine w w = some 1 ∧
    cosineEntry w w = (0.9999 : ℝ) := by
  have hnw : npNorm w = 1 := by
    rw [npNorm, hw, Real.sqrt_one]
  refine ⟨?_, ?_, ?_⟩
  · intro x hx
    obtain ⟨t, _, rfl⟩ := List.mem_map.mp hx
    rcases hr : rawCosine seed t with _ | y
    · simp only [cosineEntry, hr, clipAndNanGuard]
      norm_num
    · simp only [cosineEntry, hr, clipAndNanGuard]
      split_ifs with h1 h2
      · constructor <;> norm_num [simThreshold]
      · constructor <;> norm_num [simThreshold]
      · push_neg at h1 h2
        rw [simThreshold] at h1 h2
        constructor <;> linarith
  · simp [rawCosine, hnw, hw]
  · simp only [cosineEntry, rawCosine, hnw, hw, clipAndNanGuard]
    norm_num [simThreshold]

/-- Witness for C4 at the unit vector `[1, 0]` and a one-row target. -/
theorem cosine_similarity_clipped_witness :
    dotProduct [(1 : ℝ), 0] [(1 : ℝ), 0] = 1 ∧
    ((∀ x ∈ cosineSimilarityRow [(1 : ℝ)] [[(2 : ℝ)]],
      -(0.9999 : ℝ) ≤ x ∧ x ≤ (0.9999 : ℝ)) ∧
     rawCosine [(1 : ℝ), 0] [(1 : ℝ), 0] = some 1 ∧
     cosineEntry [(1 : ℝ), 0] [(1 : ℝ), 0] = (0.9999 : ℝ)) :=
  ⟨by norm_num [dotProduct],
   cosine_similarity_clipped [(1 : ℝ)] [[(2 : ℝ)]] [(1 : ℝ), 0]
     (by norm_num [dotProduct])⟩

/-- C6: whenever one of the two vectors has zero norm, the raw quotient
is the not-a-number case (`none` in this model) and the returned
similarity entry is exactly `0` — `NaN` is never returned. -/
theorem cosine_zero_norm_entry (u v : List ℝ)
    (h : npNorm u = 0 ∨ npNorm v = 0) :
    rawCosine u v = none ∧ cosineEntry u v = 0 := by
  have hd : npNorm u * npNorm v = 0 := by
    rcases h with h | h <;> simp [h]
  refine ⟨?_, ?_⟩
  · simp [rawCosine, hd]
  · simp [cosineEntry, rawCosine, hd, clipAndNanGuard]

/-- Witness for C6 at the zero vector `[0, 0]` against `[3, 4]`. -/
theorem cosine_zero_norm_entry_witness :
    (npNorm [(0 : ℝ), 0] = 0 ∨ npNorm [(3 : ℝ), 4] = 0) ∧
    (rawCosine [(0 : ℝ), 0] [(3 : ℝ), 4] = none ∧
     cosineEntry [(0 : ℝ), 0] [(3 : ℝ), 4] = 0) :=
  ⟨Or.inl (by norm_num [npNorm, dotProduct]),
   cosine_zero_norm_entry [(0 : ℝ), 0] [(3 : ℝ), 4]
     (Or.inl (by norm_num [npNorm, dotProduct]))⟩

/-- C10: the species argument of `feature_similarity` is resolved by
dynamic attribute lookup: any string naming an array-valued attribute of
the feature-data object — `"human_left"` or `"all_data"` just as well as
`"human"` and `"macaque"` — is silently accepted and its array is used
as the weighted-average source, while a string naming no attribute makes
the lookup raise `AttributeError`, which is not a `ValueError`-class
validation error. -/
theorem feature_similarity_species_dynamic_lookup
    (fd : FeatureData FeatureMatrix) (weights : List ℝ) (s : String)
    (hs : s ∉ ["human_left", "human_right", "macaque_left", "macaque_right",
      "human", "macaque", "all_data"]) :
    featureDataGetAttr fd "human_left" = .ok fd.human_left ∧
    featureDataGetAttr fd "all_data" = .ok fd.all_data ∧
    feature_similarity fd weights "human_left" =
      similarityFromSource fd fd.human_left weights ∧
    feature_similarity fd weights "all_data" =
      similarityFromSource fd fd.all_data weights ∧
    feature_similarity fd weights s =
      .error (.attributeError
        ("FeatureData object has no attribute " ++ s)) ∧
    PyError.isValueError (.attributeError
      ("FeatureData object has no attribute " ++ s)) = false := by
  have hns : s ≠ "human_left" ∧ s ≠ "human_right" ∧ s ≠ "macaque_left" ∧
      s ≠ "macaque_right" ∧ s ≠ "human" ∧ s ≠ "macaque" ∧
      s ≠ "all_data" := by
    simpa using hs
  obtain ⟨h1, h2, h3, h4, h5, h6, h7⟩ := hns
  refine ⟨?_, ?_, ?_, ?_, ?_, rfl⟩
  · simp [featureDataGetAttr]
  · simp [featureDataGetAttr]
  · simp [feature_similarity, featureDataGetAttr]
  · simp [feature_similarity, featureDataGetAttr]
  · simp [feature_similarity, featureDataGetAttr, h1, h2, h3, h4, h5, h6, h7]

/-- Witness for C10 at the attribute-free species string `"bogus"`. -/
theorem feature_similarity_species_dynamic_lookup_witness :
    (("bogus" : String) ∉ ["human_left", "human_right", "macaque_left",
      "macaque_right", "human", "macaque", "all_data"]) ∧
    feature_similarity
        ⟨[[(1 : ℝ)]], [[(1 : ℝ)]], [[(1 : ℝ)]], [[(1 : ℝ)]]⟩ [] "bogus" =
      .error (.attributeError "FeatureData object has no attribute bogus") :=
  ⟨by decide,
   by
    have h := (feature_similarity_species_dynamic_lookup
      ⟨[[(1 : ℝ)]], [[(1 : ℝ)]], [[(1 : ℝ)]], [[(1 : ℝ)]]⟩ [] "bogus"
      (by decide)).2.2.2.2.1
    simpa using h⟩

/-- Any error of `load_from_h5` is a `FileNotFoundError` (missing file)
or a `KeyError` (missing dataset). -/
theorem load_from_h5_error_shape {α : Type} (fs : H5Fs α) (p : PyPath)
    (e : PyError) (h : load_from_h5 fs p = .error e) :
    (∃ m, e = .fileNotFoundError m) ∨ (∃ m, e = .keyError m) := by
  unfold load_from_h5 h5pyOpen h5GetItem at h
  rcases hl : fs.lookup p with _ | h5
  · simp only [hl, Except.error.injEq] at h
    exact Or.inl ⟨_, h.symm⟩
  · simp only [hl] at h
    rcases hd : h5.lookup "data" with _ | v
    · simp only [hd, Except.error.injEq] at h
      exact Or.inr ⟨_, h.symm⟩
    · simp [hd] at h

/-- A successful `load_from_h5` found the file and its `data` dataset. -/
theorem load_from_h5_ok {α : Type} (fs : H5Fs α) (p : PyPath) (v : α)
    (h : load_from_h5 fs p = .ok v) :
    ∃ d, fs.lookup p = some d ∧ d.lookup "data" = some v := by
  unfold load_from_h5 h5pyOpen h5GetItem at h
  rcases hl : fs.lookup p with _ | h5
  · simp [hl] at h
  · simp only [hl] at h
    rcases hd : h5.lookup "data" with _ | w
    · simp [hd] at h
    · simp only [hd, Except.ok.injEq] at h
      exact ⟨h5, rfl, h ▸ hd⟩

/-- A successful `from_data_dir` loaded all four feature files. -/
theorem from_data_dir_ok_loads {α : Type} (fs : H5Fs α) (dataDir : PyPath)
    (fd : FeatureData α) (h : from_data_dir fs dataDir = .ok fd) :
    ∀ p ∈ featureFilePaths dataDir, ∃ v, load_from_h5 fs p = .ok v := by
  unfold from_data_dir at h
  rcases h1 : load_from_h5 fs (dataDir ++ ["human_left_gradient_10k_fs_lr.h5"])
      with e | hl <;> rw [h1] at h
  · simp at h
  rcases h2 : load_from_h5 fs (dataDir ++ ["human_right_gradient_10k_fs_lr.h5"])
      with e | hr <;> rw [h2] at h
  · simp at h
  rcases h3 : load_from_h5 fs (dataDir ++ ["macaque_left_gradient_10k_fs_lr.h5"])
      with e | ml <;> rw [h3] at h
  · simp at h
  rcases h4 : load_from_h5 fs
      (dataDir ++ ["macaque_right_gradient_10k_fs_lr.h5"]) with e | mr <;>
    rw [h4] at h
  · simp at h
  intro p hp
  simp only [featureFilePaths, List.mem_cons, List.not_mem_nil, or_false]
    at hp
  rcases hp with rfl | rfl | rfl | rfl
  · exact ⟨hl, h1⟩
  · exact ⟨hr, h2⟩
  · exact ⟨ml, h3⟩
  · exact ⟨mr, h4⟩

/-- C2 (amended): if any of the four feature files is missing or lacks
the dataset `data`, the feature-store load raises; the raised error is
the `IOError`-class `FileNotFoundError` exactly when the first failing
file is missing, but a file that exists without a `data` dataset raises
`KeyError`, which is not `IOError`-class. -/
theorem from_data_dir_failure_classes {α : Type} (fs : H5Fs α)
    (dataDir : PyPath) :
    (∀ e, from_data_dir fs dataDir = .error e →
      ((∃ m, e = .fileNotFoundError m) ∧ PyError.isIOError e = true) ∨
      ((∃ m, e = .keyError m) ∧ PyError.isIOError e = false)) ∧
    (((∃ p ∈ featureFilePaths dataDir, fs.lookup p = none) ∨
      (∃ p ∈ featureFilePaths dataDir, ∃ d, fs.lookup p = some d ∧
        d.lookup "data" = none)) →
      ∃ e, from_data_dir fs dataDir = .error e) := by
  constructor
  · intro e h
    have hshape : (∃ m, e = .fileNotFoundError m) ∨
        (∃ m, e = .keyError m) := by
      unfold from_data_dir at h
      rcases h1 : load_from_h5 fs
          (dataDir ++ ["human_left_gradient_10k_fs_lr.h5"]) with e1 | hl <;>
        rw [h1] at h
      · simp only [Except.error.injEq] at h
        exact load_from_h5_error_shape _ _ _ (h ▸ h1)
      rcases h2 : load_from_h5 fs
          (dataDir ++ ["human_right_gradient_10k_fs_lr.h5"]) with e2 | hr <;>
        rw [h2] at h
      · simp only [Except.error.injEq] at h
        exact load_from_h5_error_shape _ _ _ (h ▸ h2)
      rcases h3 : load_from_h5 fs
          (dataDir ++ ["macaque_left_gradient_10k_fs_lr.h5"]) with e3 | ml <;>
        rw [h3] at h
      · simp only [Except.error.injEq] at h
        exact load_from_h5_error_shape _ _ _ (h ▸ h3)
      rcases h4 : load_from_h5 fs
          (dataDir ++ ["macaque_right_gradient_10k_fs_lr.h5"]) with e4 | mr <;>
        rw [h4] at h
      · simp only [Except.error.injEq] at h
        exact load_from_h5_error_shape _ _ _ (h ▸ h4)
      · simp at h
    rcases hshape with ⟨m, rfl⟩ | ⟨m, rfl⟩
    · exact Or.inl ⟨⟨m, rfl⟩, rfl⟩
    · exact Or.inr ⟨⟨m, rfl⟩, rfl⟩
  · intro hbad
    rcases hres : from_data_dir fs dataDir with e | fd
    · exact ⟨e, rfl⟩
    · exfalso
      have hok := from_data_dir_ok_loads fs dataDir fd hres
      rcases hbad with ⟨p, hp, hnone⟩ | ⟨p, hp, d, hd, hnone⟩
      · obtain ⟨v, hv⟩ := hok p hp
        obtain ⟨d, hd, _⟩ := load_from_h5_ok fs p v hv
        rw [hnone] at hd
        exact Option.noConfusion hd
      · obtain ⟨v, hv⟩ := hok p hp
        obtain ⟨d', hd', hdata⟩ := load_from_h5_ok fs p v hv
        rw [hd] at hd'
        have hdd : d = d' := Option.some.inj hd'
        subst hdd
        rw [hnone] at hdata
        exact Option.noConfusion hdata

/-- Witness for C2 (amended): a store whose human-left feature file is
missing is reported with an `IOError`-class error. -/
theorem from_data_dir_failure_classes_witness :
    ((∃ p ∈ featureFilePaths ["data_dir"],
        ([] : H5Fs Nat).lookup p = none) ∨
     (∃ p ∈ featureFilePaths ["data_dir"], ∃ d,
        ([] : H5Fs Nat).lookup p = some d ∧ d.lookup "data" = none)) ∧
    (∃ e, from_data_dir ([] : H5Fs Nat) ["data_dir"] = .error e) :=
  ⟨Or.inl ⟨["data_dir", "human_left_gradient_10k_fs_lr.h5"],
     by decide, rfl⟩,
   (from_data_dir_failure_classes ([] : H5Fs Nat) ["data_dir"]).2
     (Or.inl ⟨["data_dir", "human_left_gradient_10k_fs_lr.h5"],
       by decide, rfl⟩)⟩

/-- An HDF5 store in which all four feature files exist but the
human-left file does not contain a dataset named `data`. -/
def h5FsNoData : H5Fs Nat :=
  [(["data_dir", "human_left_gradient_10k_fs_lr.h5"], [("other", 0)]),
   (["data_dir", "human_right_gradient_10k_fs_lr.h5"], [("data", 1)]),
   (["data_dir", "macaque_left_gradient_10k_fs_lr.h5"], [("data", 2)]),
   (["data_dir", "macaque_right_gradient_10k_fs_lr.h5"], [("data", 3)])]

/-- C2 (counterexample): with every file present but the dataset `data`
absent from one of them, the load raises a `KeyError`, which is not an
`IOError`-class error — contradicting the claim that this case raises
an `IOError`-class error. -/
theorem from_data_dir_keyerror_counterexample :
    (raisedError (from_data_dir h5FsNoData ["data_dir"])).map
      PyError.isIOError = some false := by
  rfl
